import Mathlib

/-!
Verification of `python_sandbox/notebooks/model_petri_equation_conversion_amr.py`
against its specification.

The script converts lists of LaTeX equations to MathML (via an external
library), submits the MathML to a remote SKEMA endpoint to obtain a
Petri-net AMR document, and reshapes that document into node/edge lists
for drawing.  The locally authored logic embedded here is:

  * `convert_latex2mathml`  — the indexed loop mapping each equation
    through the external converter and the HTML numeric-reference
    unescaper (both external: passed as oracle functions);
  * `convert_mathml2petrinet` — the wrapper around the remote HTTP call
    (the network is external: the HTTP response is an oracle argument);
  * `draw_graph` (the `model_format = 'AMR'` branch) — the reshape of the
    AMR document into the `df_nodes` / `df_edges` tables, and the
    save-to-file step with its `fig` local-variable scoping.
-/

namespace PetriAMR

/-- A state record of an AMR model document, as read by `draw_graph`:
only the `'id'` field is consumed (`state['id']`). -/
structure State where
  id : String
deriving Repr, DecidableEq

/-- A transition record of an AMR model document, as read by `draw_graph`:
`trans['id']`, `trans['input']` and `trans['output']` are consumed. -/
structure Transition where
  id : String
  input : List String
  output : List String
deriving Repr, DecidableEq

/-- The nested object `model['model']` with its `'states'` and
`'transitions'` lists. -/
structure ModelBody where
  states : List State
  transitions : List Transition
deriving Repr, DecidableEq

/-- A top-level AMR model document (the fields `draw_graph` reads). -/
structure Model where
  model : ModelBody
deriving Repr, DecidableEq

/-- One row of the `df_nodes` table: `{'id': ..., 'type': ...}`. -/
structure NodeRow where
  id : String
  type : String
deriving Repr, DecidableEq

/-- One row of the `df_edges` table:
`{'id': '', 'source': ..., 'target': ..., 'edge_type': ...}`. -/
structure EdgeRow where
  id : String
  source : String
  target : String
  edge_type : String
deriving Repr, DecidableEq

/-- The node list built by `draw_graph` for `model_format = 'AMR'`:

`[{'id': state['id'], 'type': 'S'} for state in model['model']['states']]
 + [{'id': trans['id'], 'type': 'T'} for trans in model['model']['transitions']]`. -/
def df_nodes (model : Model) : List NodeRow :=
  (model.model.states.map (fun state => ⟨state.id, "S"⟩)) ++
  (model.model.transitions.map (fun trans => ⟨trans.id, "T"⟩))

/-- The edge list built by `draw_graph` for `model_format = 'AMR'`:

`[{'id': '', 'source': state_id, 'target': trans['id'], 'edge_type': 'I'}
   for trans in model['model']['transitions'] for state_id in trans['input']]
 + [{'id': '', 'source': trans['id'], 'target': state_id, 'edge_type': 'O'}
   for trans in model['model']['transitions'] for state_id in trans['output']]`. -/
def df_edges (model : Model) : List EdgeRow :=
  (model.model.transitions.flatMap (fun trans =>
    trans.input.map (fun state_id => ⟨"", state_id, trans.id, "I"⟩))) ++
  (model.model.transitions.flatMap (fun trans =>
    trans.output.map (fun state_id => ⟨"", trans.id, state_id, "O"⟩)))

/-- The identifiers of the declared states of a model document. -/
def stateIds (m : Model) : List String :=
  m.model.states.map State.id

/-- The identifiers of the transitions of a model document. -/
def transIds (m : Model) : List String :=
  m.model.transitions.map Transition.id

/-- Every transition's `input` and `output` lists reference only declared
state identifiers (the model-document schema as consumed). -/
def WellFormed (m : Model) : Prop :=
  ∀ t ∈ m.model.transitions,
    (∀ s ∈ t.input, s ∈ stateIds m) ∧ (∀ s ∈ t.output, s ∈ stateIds m)

instance (m : Model) : Decidable (WellFormed m) := by
  unfold WellFormed
  infer_instance

/-- A small concrete SIR-style model document used as test data. -/
def sirModel : Model :=
  ⟨⟨[⟨"S"⟩, ⟨"I"⟩, ⟨"R"⟩],
    [⟨"t1", ["S", "I"], ["I", "I"]⟩, ⟨"t2", ["I"], ["R"]⟩]⟩⟩

/-- The node/edge reshape of `draw_graph` (`model_format = 'AMR'`,
source lines 104–111) as one function. -/
def reshape (m : Model) : List NodeRow × List EdgeRow :=
  (df_nodes m, df_edges m)

/-- Two successive runs of the reshape on the same document: the source
builds `df_nodes` and `df_edges` from the document alone, reading no other
state, so a second run repeats the same computation. -/
def reshapeTwice (m : Model) :
    (List NodeRow × List EdgeRow) × (List NodeRow × List EdgeRow) :=
  (reshape m, reshape m)

/-- The identifiers appearing in the node list. -/
def nodeIds (m : Model) : List String :=
  (df_nodes m).map NodeRow.id

/-- A JSON value, for the documents exchanged with the SKEMA service. -/
inductive JsonVal where
  | null
  | bool (b : Bool)
  | num (n : Int)
  | str (s : String)
  | arr (elems : List JsonVal)
  | obj (fields : List (String × JsonVal))

/-- An HTTP response as seen by the script through `requests`:
`res.url`, `res.status_code`, `res.text`, and `res.json()`.  The network
is external, so the response is an oracle argument of the embedding;
`json_body = none` means the body is not valid JSON (`res.json()` would
raise). -/
structure Response where
  url : String
  status_code : Nat
  text : String
  json_body : Option JsonVal

/-- The diagnostic line printed by `convert_mathml2petrinet`:
`f'{res.url}: Code {res.status_code}\n\t"{res.text}"'`. -/
def logLine (res : Response) : String :=
  res.url ++ ": Code " ++ toString res.status_code ++ "\n\t\"" ++ res.text ++ "\""

/-- `convert_mathml2petrinet(model_mathml)`: initialises the result to the
empty document `{}`; on the `model_mathml == None` path it pings the
service and only prints; otherwise it PUTs the MathML list and overwrites
the result with `res.json()` exactly when `res.status_code == 200`.
Returns (result, printed line); the error case models `res.json()`
raising on a non-JSON body. -/
def convert_mathml2petrinet (model_mathml : Option (List String))
    (res : Response) : Except String (JsonVal × String) :=
  match model_mathml with
  | none => Except.ok (JsonVal.obj [], logLine res)
  | some _ =>
    if res.status_code == 200 then
      match res.json_body with
      | some j => Except.ok (j, logLine res)
      | none => Except.error "JSONDecodeError"
    else
      Except.ok (JsonVal.obj [], logLine res)

/-- `convert_latex2mathml(model_latex)`: the loop
`for i in range(len(model_latex))` appending
`html.unescape(latex2mathml.converter.convert(model_latex[i]))`.
Both `latex2mathml.converter.convert` and `html.unescape` are external and
passed as oracle functions. -/
def convert_latex2mathml (convert unescape : String → String)
    (model_latex : List String) : List String :=
  (List.range model_latex.length).map
    (fun i => unescape (convert (model_latex.getD i "")))

/-- A file written by `fig.savefig(save_path, dpi = 150)`. -/
structure FileWrite where
  path : String
  dpi : Nat
deriving Repr, DecidableEq

/-- `draw_graph` on the `model_format = 'AMR'` branch, reduced to its
observable behaviour: the node/edge tables it builds, the optional file
write, and the document it was given.  The local `fig` is assigned only
inside `if ax == None:` (line 149), and `if save_path != None:` runs
`fig.savefig(save_path, dpi = 150)` (lines 197–198), so a call with a
caller-supplied `ax` and a non-None `save_path` raises
`UnboundLocalError` on `fig`.  The document is threaded through
explicitly: the source only reads `model`, never assigns into it, so it
comes back unchanged. -/
def draw_graph (model : Model) (ax_given : Bool) (save_path : Option String) :
    Except String (List NodeRow × List EdgeRow × Option FileWrite) × Model :=
  let nodes := df_nodes model
  let edges := df_edges model
  let core : Except String (List NodeRow × List EdgeRow × Option FileWrite) :=
    match save_path with
    | none => Except.ok (nodes, edges, none)
    | some p =>
      if ax_given then Except.error "UnboundLocalError: fig"
      else Except.ok (nodes, edges, some ⟨p, 150⟩)
  (core, model)

end PetriAMR

namespace PetriAMR

theorem nodeIds_eq (m : Model) : nodeIds m = stateIds m ++ transIds m := by
  simp [nodeIds, df_nodes, stateIds, transIds, Function.comp_def]

/-- Claim C1. For a model document whose transitions reference only declared
state identifiers, `df_nodes` has exactly (number of states) + (number of
transitions) entries, and `df_edges` has exactly (sum of input-list
lengths) + (sum of output-list lengths) entries. -/
theorem draw_graph_counts (m : Model) (h : WellFormed m) :
    (df_nodes m).length = m.model.states.length + m.model.transitions.length ∧
    (df_edges m).length =
      ((m.model.transitions.map (fun t => t.input.length)).sum +
       (m.model.transitions.map (fun t => t.output.length)).sum) := by
  constructor
  · simp [df_nodes]
  · simp [df_edges, List.length_flatMap, Function.comp_def]

/-- Witness for C1 at the concrete SIR model: 3 states, 2 transitions,
3 input arcs, 3 output arcs. -/
theorem draw_graph_counts_witness :
    WellFormed sirModel ∧
    ((df_nodes sirModel).length =
        sirModel.model.states.length + sirModel.model.transitions.length ∧
     (df_edges sirModel).length =
      ((sirModel.model.transitions.map (fun t => t.input.length)).sum +
       (sirModel.model.transitions.map (fun t => t.output.length)).sum)) :=
  ⟨by decide, draw_graph_counts sirModel (by decide)⟩

/-- Claim C3. For a model document whose transitions reference only declared
state identifiers, every edge of `df_edges` has its source and its target
among the identifiers of the node list `df_nodes`: no dangling reference. -/
theorem draw_graph_no_dangling (m : Model) (h : WellFormed m) :
    ∀ e ∈ df_edges m, e.source ∈ nodeIds m ∧ e.target ∈ nodeIds m := by
  intro e he
  rw [nodeIds_eq]
  rcases List.mem_append.mp he with h1 | h1
  · rcases List.mem_flatMap.mp h1 with ⟨t, ht, hmem⟩
    rcases List.mem_map.mp hmem with ⟨s, hs, rfl⟩
    refine ⟨List.mem_append.mpr (Or.inl ?_), List.mem_append.mpr (Or.inr ?_)⟩
    · exact (h t ht).1 s hs
    · exact List.mem_map.mpr ⟨t, ht, rfl⟩
  · rcases List.mem_flatMap.mp h1 with ⟨t, ht, hmem⟩
    rcases List.mem_map.mp hmem with ⟨s, hs, rfl⟩
    refine ⟨List.mem_append.mpr (Or.inr ?_), List.mem_append.mpr (Or.inl ?_)⟩
    · exact List.mem_map.mpr ⟨t, ht, rfl⟩
    · exact (h t ht).2 s hs

/-- Witness for C3 at the concrete SIR model. -/
theorem draw_graph_no_dangling_witness :
    WellFormed sirModel ∧
    (∀ e ∈ df_edges sirModel,
      e.source ∈ nodeIds sirModel ∧ e.target ∈ nodeIds sirModel) :=
  ⟨by decide, draw_graph_no_dangling sirModel (by decide)⟩

/-- Claim C4. Running the `draw_graph` AMR reshape twice on the same input
document yields the same node list and the same edge list both times:
the reshape reads nothing but the document. -/
theorem reshape_idempotent (m : Model) :
    (reshapeTwice m).1 = (reshapeTwice m).2 :=
  rfl

/-- Claim C6. For a model document whose transitions reference only declared
state identifiers, every edge of `df_edges` of type `'I'` goes from a state
identifier to a transition identifier, and every edge of type `'O'` goes
from a transition identifier to a state identifier. -/
theorem draw_graph_edge_direction (m : Model) (h : WellFormed m) :
    ∀ e ∈ df_edges m,
      (e.edge_type = "I" → e.source ∈ stateIds m ∧ e.target ∈ transIds m) ∧
      (e.edge_type = "O" → e.source ∈ transIds m ∧ e.target ∈ stateIds m) := by
  intro e he
  rcases List.mem_append.mp he with h1 | h1
  · rcases List.mem_flatMap.mp h1 with ⟨t, ht, hmem⟩
    rcases List.mem_map.mp hmem with ⟨s, hs, rfl⟩
    refine ⟨fun _ => ⟨(h t ht).1 s hs, List.mem_map.mpr ⟨t, ht, rfl⟩⟩, fun hIO => ?_⟩
    simp at hIO
  · rcases List.mem_flatMap.mp h1 with ⟨t, ht, hmem⟩
    rcases List.mem_map.mp hmem with ⟨s, hs, rfl⟩
    refine ⟨fun hIO => ?_, fun _ => ⟨List.mem_map.mpr ⟨t, ht, rfl⟩, (h t ht).2 s hs⟩⟩
    simp at hIO

/-- Witness for C6 at the concrete SIR model. -/
theorem draw_graph_edge_direction_witness :
    WellFormed sirModel ∧
    (∀ e ∈ df_edges sirModel,
      (e.edge_type = "I" →
        e.source ∈ stateIds sirModel ∧ e.target ∈ transIds sirModel) ∧
      (e.edge_type = "O" →
        e.source ∈ transIds sirModel ∧ e.target ∈ stateIds sirModel)) :=
  ⟨by decide, draw_graph_edge_direction sirModel (by decide)⟩

/-- Claim C2. With a non-None MathML list, `convert_mathml2petrinet` returns
the empty document `{}` (and raises nothing) whenever the HTTP status is
not 200, and returns the parsed JSON response body exactly when the status
is 200. -/
theorem convert_mathml2petrinet_status (mathml : List String) (res : Response) :
    (res.status_code ≠ 200 →
      convert_mathml2petrinet (some mathml) res =
        Except.ok (JsonVal.obj [], logLine res)) ∧
    (∀ j, res.status_code = 200 → res.json_body = some j →
      convert_mathml2petrinet (some mathml) res = Except.ok (j, logLine res)) := by
  constructor
  · intro hne
    simp [convert_mathml2petrinet, hne]
  · intro j h200 hj
    simp [convert_mathml2petrinet, h200, hj]

/-- Witness for C2: a 500 response yields the empty document, a 200
response yields its parsed body. -/
theorem convert_mathml2petrinet_status_witness :
    convert_mathml2petrinet (some ["<math></math>"]) ⟨"u", 500, "err", none⟩ =
      Except.ok (JsonVal.obj [], logLine ⟨"u", 500, "err", none⟩) ∧
    convert_mathml2petrinet (some ["<math></math>"])
        ⟨"u", 200, "null", some JsonVal.null⟩ =
      Except.ok (JsonVal.null, logLine ⟨"u", 200, "null", some JsonVal.null⟩) :=
  ⟨(convert_mathml2petrinet_status ["<math></math>"] ⟨"u", 500, "err", none⟩).1
      (by decide),
   (convert_mathml2petrinet_status ["<math></math>"]
      ⟨"u", 200, "null", some JsonVal.null⟩).2 JsonVal.null rfl rfl⟩

/-- Claim C9. On the no-argument ping path, `convert_mathml2petrinet`
returns the empty document `{}` whatever the response: the health-check
status is only printed (it appears in the log line), never returned. -/
theorem convert_mathml2petrinet_ping (res : Response) :
    convert_mathml2petrinet none res = Except.ok (JsonVal.obj [], logLine res) :=
  rfl

/-- Claim C5. `convert_latex2mathml` returns a list of the same length whose
i-th element is the unescaped conversion of the i-th input, in input
order. -/
theorem convert_latex2mathml_spec (convert unescape : String → String)
    (xs : List String) :
    (convert_latex2mathml convert unescape xs).length = xs.length ∧
    ∀ i, i < xs.length →
      (convert_latex2mathml convert unescape xs).getD i "" =
        unescape (convert (xs.getD i "")) := by
  constructor
  · simp [convert_latex2mathml]
  · intro i hi
    have hlen :
        i < ((List.range xs.length).map
          (fun i => unescape (convert (xs.getD i "")))).length := by
      simpa using hi
    rw [convert_latex2mathml, List.getD_eq_getElem _ _ hlen]
    simp

/-- Witness for C5 at a concrete two-element list and concrete string
functions. -/
theorem convert_latex2mathml_spec_witness :
    1 < (["x", "y"] : List String).length ∧
    (convert_latex2mathml (fun s => s ++ "!") (fun s => s ++ "?")
        ["x", "y"]).getD 1 "" =
      (fun s : String => s ++ "?")
        ((fun s : String => s ++ "!") ((["x", "y"] : List String).getD 1 "")) :=
  ⟨by decide,
   (convert_latex2mathml_spec (fun s => s ++ "!") (fun s => s ++ "?")
      ["x", "y"]).2 1 (by decide)⟩

/-- Claim C7, amended. With `save_path` non-None and no caller-supplied
`ax`, `draw_graph` writes the figure to that path at 150 dpi; with
`save_path = None`, no file is written (whether or not an `ax` is
supplied). -/
theorem draw_graph_save (m : Model) (p : String) :
    (draw_graph m false (some p)).1 =
      Except.ok (df_nodes m, df_edges m, some ⟨p, 150⟩) ∧
    ∀ ax_given, (draw_graph m ax_given none).1 =
      Except.ok (df_nodes m, df_edges m, none) :=
  ⟨rfl, fun _ => rfl⟩

/-- Counterexample to C7 as stated: a call with a non-None `save_path`
but a caller-supplied `ax` writes no file — it fails on the unbound local
`fig`. -/
theorem draw_graph_save_counterexample :
    (draw_graph sirModel true (some "fig.png")).1 =
      Except.error "UnboundLocalError: fig" :=
  rfl

/-- Claim C8. `draw_graph` does not mutate its input model document: the
document threaded through the call comes back equal to the input. -/
theorem draw_graph_frame (m : Model) (ax_given : Bool)
    (save_path : Option String) :
    (draw_graph m ax_given save_path).2 = m :=
  rfl

/-- Claim C10. With a caller-supplied `ax` and a non-None `save_path`, the
save step references the local `fig`, assigned only when `ax` is None, so
the call fails with an unbound-name error and writes nothing; saving
succeeds exactly when `draw_graph` creates its own figure. -/
theorem draw_graph_fig_unbound (m : Model) (p : String) :
    (draw_graph m true (some p)).1 = Except.error "UnboundLocalError: fig" ∧
    (draw_graph m false (some p)).1 =
      Except.ok (df_nodes m, df_edges m, some ⟨p, 150⟩) :=
  ⟨rfl, rfl⟩

end PetriAMR
